import Mathlib

/-!
Shallow embedding of `src/sdk-app.ts` (AcrossSdkDemo): a one-shot script that
checks a wallet balance on the origin chain, requests a cross-chain bridging
quote from the Across service, executes it, and logs progress and the terminal
result.  External collaborators (viem chain clients, the Across service, key
derivation) are modelled by a `World` record of oracle functions; the script's
own control flow, lookups, comparisons and logging are translated directly
from the source.  Every observable action (console log, network call) is
recorded in an explicit `Event` trace so that ordering and absence of side
effects can be stated.
-/

namespace SdkApp

/-- A viem chain definition (only the fields the script reads). -/
structure ChainDef where
  id : Nat
  name : String
deriving DecidableEq

/-- viem's `sepolia` chain (id 11155111). -/
def sepolia : ChainDef := ⟨11155111, "Sepolia"⟩

/-- viem's `arbitrumSepolia` chain (id 421614). -/
def arbitrumSepolia : ChainDef := ⟨421614, "Arbitrum Sepolia"⟩

/-- Line 16: `const originChain = sepolia`. -/
def originChain : ChainDef := sepolia

/-- Line 17: `const destinationChain = arbitrumSepolia`. -/
def destinationChain : ChainDef := arbitrumSepolia

/-- Line 18: `const originTokenSymbol = "ETH"`. -/
def originTokenSymbol : String := "ETH"

/-- Line 19: `const destTokenSymbol = "WETH"`. -/
def destTokenSymbol : String := "WETH"

/-- A token entry of the Across supported-chains response. -/
structure TokenInfo where
  symbol : String
  address : String
deriving DecidableEq

/-- A chain entry of the Across supported-chains response.  The SDK type has
both an `inputTokens` and an `outputTokens` list; the script only ever reads
`inputTokens` (lines 74 and 77). -/
structure AcrossChain where
  chainId : Nat
  inputTokens : List TokenInfo
  outputTokens : List TokenInfo
deriving DecidableEq

/-- The route descriptor the script builds (lines 80-85). -/
structure RouteDesc where
  originChainId : Nat
  destinationChainId : Nat
  inputToken : String
  outputToken : String
deriving DecidableEq

/-- The quote request (`intent`, lines 79-87): a route plus an input amount
in wei. -/
structure GetQuoteParams where
  route : RouteDesc
  inputAmount : Nat
deriving DecidableEq

/-- The deposit payload inside a quote.  The script reads `inputAmount` and
`outputAmount` for logging and otherwise passes the deposit verbatim to
`executeQuote`; the remaining fields are collapsed into an uninterpreted
`data` string. -/
structure Deposit where
  inputAmount : Nat
  outputAmount : Nat
  data : String
deriving DecidableEq

/-- `quote.fees.totalRelayFee` (only `.total` is read, line 96). -/
structure RelayFee where
  total : Nat
deriving DecidableEq

/-- `quote.fees` (only `.totalRelayFee` is read). -/
structure QuoteFees where
  totalRelayFee : RelayFee
deriving DecidableEq

/-- A quote returned by the Across service (the fields the script reads). -/
structure Quote where
  deposit : Deposit
  fees : QuoteFees
  estimatedFillTimeSec : Option Nat
deriving DecidableEq

/-- The terminal result of `client.executeQuote` (line 146).  The script only
distinguishes presence of `error`; the success payload is collapsed into an
uninterpreted `payload` string. -/
structure ExecuteQuoteResponseParams where
  error : Option String
  payload : String
deriving DecidableEq

/-- A progress notification delivered to the `onProgress` callback.  The SDK
type is a discriminated union over `step`; here all payload fields are
present and the callback reads only the ones its branch destructures. -/
structure ExecutionProgress where
  status : String
  step : String
  txReceipt : String
  depositId : Nat
  fillTxTimestamp : Nat
  actionSuccess : Bool
deriving DecidableEq

/-- A viem account derived from a private key (only `.address` is read). -/
structure Account where
  address : String
deriving DecidableEq

/-- The wallet client (lines 43-47): bound to the derived account and the
origin chain. -/
structure WalletClient where
  account : Account
  chain : ChainDef
deriving DecidableEq

/-- The process environment slots the script reads: `PRIVATE_KEY` (may be
absent) and `PUBLIC_KEY`. -/
structure Env where
  privateKey : Option String
  publicKey : String

/-- The external collaborators, modelled as oracles: the origin-chain balance
per address, the Across supported-chains response, the quote the service
returns for an intent, the terminal result `executeQuote` resolves to for a
deposit, and viem's address derivation from a private key. -/
structure World where
  balanceOf : String → Nat
  chains : List AcrossChain
  quoteFor : GetQuoteParams → Quote
  executeResult : Deposit → ExecuteQuoteResponseParams
  deriveAddress : String → String

/-- The failure conditions a run can end in.  `insufficientFunds` and
`invalidPrivateKey` and `typeErrorUndefined` are what the code actually
throws; `missingCredential`, `chainNotFound` and `tokenNotFound` are the
named conditions of the spec's error taxonomy, present here so that their
absence from the code's behaviour can be stated. -/
inductive RunError where
  | insufficientFunds
  | invalidPrivateKey (raw : String)
  | typeErrorUndefined (name : String)
  | missingCredential
  | chainNotFound
  | tokenNotFound
deriving DecidableEq

/-- Every observable action of a run, in order: console logs and
network-bound calls. -/
inductive Event where
  | logLoadedKeys
  | logChainSelection
  | logValidating (address : String)
  | balanceQuery (address : String)
  | logWeiBalance (wei : Nat)
  | logEthBalance (eth : ℚ)
  | logInsufficientFunds
  | createClient
  | supportedChainsQuery
  | logRequestingQuote
  | quoteRequest (intent : GetQuoteParams)
  | logQuoteSummary (q : Quote)
  | executeQuote (deposit : Deposit) (signer : String)
  | logBridgeError (msg : String)
  | logBridgeSuccess (r : ExecuteQuoteResponseParams)
deriving DecidableEq

/-- Network calls issued by the bridging part of the flow: client creation,
the supported-chains fetch, the quote request, and execution.  (The balance
query belongs to the precheck, not to bridging; see `Event.isNetworkEffect`.) -/
def Event.isBridgingSideEffect : Event → Bool
  | .createClient => true
  | .supportedChainsQuery => true
  | .quoteRequest _ => true
  | .executeQuote _ _ => true
  | _ => false

/-- Any network-bound call, the balance query included. -/
def Event.isNetworkEffect : Event → Bool
  | .balanceQuery _ => true
  | e => e.isBridgingSideEffect

/-- Recognises the execution submission event. -/
def Event.isExecuteStep : Event → Bool
  | .executeQuote _ _ => true
  | _ => false

/-- Recognises the two terminal-result log lines (lines 153 and 155). -/
def Event.isResultLog : Event → Bool
  | .logBridgeError _ => true
  | .logBridgeSuccess _ => true
  | _ => false

/-- Line 33: `getPubKey` returns `process.env.PUBLIC_KEY`. -/
def getPubKey (env : Env) : String := env.publicKey

/-- Line 30: `getPK` returns the derived account's address (unused by the
flow, kept for fidelity). -/
def getPK (acct : Account) : String := acct.address

/-- Line 28: the template literal interpolates `process.env.PRIVATE_KEY!`
into a hex string; an absent variable interpolates as the literal text
`undefined`, yielding `0xundefined`. -/
def rawPrivateKey (env : Env) : String := "0x" ++ env.privateKey.getD "undefined"

/-- Hex-digit test used by the private-key validity check. -/
def hexDigit (c : Char) : Bool :=
  c.isDigit || (decide ('a' ≤ c) && decide (c ≤ 'f')) || (decide ('A' ≤ c) && decide (c ≤ 'F'))

/-- Validity of a `0x`-prefixed 32-byte private-key hex string, as enforced
by viem's `privateKeyToAccount` (which throws on an ill-formed key). -/
def isValidPrivateKeyHex (s : String) : Bool :=
  match s.toList with
  | '0' :: 'x' :: rest => rest.length == 64 && rest.all hexDigit
  | _ => false

/-- viem's `privateKeyToAccount` (line 28): derives an account from a valid
private key, throws on an ill-formed one.  Derivation itself is external
(`World.deriveAddress`); only the throw-on-invalid contract is modelled. -/
def privateKeyToAccount (w : World) (raw : String) : Except RunError Account :=
  if isValidPrivateKeyHex raw then .ok ⟨w.deriveAddress raw⟩
  else .error (.invalidPrivateKey raw)

/-- Lines 43-47: the wallet client is bound to the derived account and the
origin chain. -/
def walletClient (acct : Account) : WalletClient := ⟨acct, originChain⟩

/-- ethers' `formatEther`: wei to the decimal ETH display value, as an exact
rational.  The source computes `Number(ethers.formatEther(weiBalance))`; at
wei granularity IEEE-754 rounding of that number never flips a comparison
against 0.01 (the nearest double to any representable value below 0.01 stays
below the double of 0.01, and conversely), so the exact rational is a
faithful model of the comparison at line 64. -/
def formatEther (wei : Nat) : ℚ := mkRat wei (10 ^ 18)

/-- Line 64's threshold `0.01`, as an exact rational. -/
def minEthBalance : ℚ := mkRat 1 100

/-- Line 86: `parseEther("0.0002")` in wei. -/
def inputAmountWei : Nat := 2 * 10 ^ 14

/-- Lines 54-68, `preValidate`: log, query the balance of the `PUBLIC_KEY`
address on the origin chain, log it in wei and in ETH, and throw
`InsufficientFundsError` when the ETH value is below 0.01. -/
def preValidate (w : World) (env : Env) : Except RunError Unit × List Event :=
  let addr := getPubKey env
  let wei := w.balanceOf addr
  let eth := formatEther wei
  if eth < minEthBalance then
    (.error .insufficientFunds,
      [.logValidating addr, .balanceQuery addr, .logWeiBalance wei,
       .logEthBalance eth, .logInsufficientFunds])
  else
    (.ok (),
      [.logValidating addr, .balanceQuery addr, .logWeiBalance wei,
       .logEthBalance eth])

/-- Lines 70-100, `getQuote`: fetch the supported chains, look up the origin
chain, its `ETH` input token, the destination chain, and its `WETH` input
token, build the intent, request the quote, log a summary, and return it.
The source performs each lookup with `find` and never checks for a miss: a
missing chain makes the very next property access (`.inputTokens`, lines 74
and 77) throw a TypeError, and a missing token makes the intent construction
(`.address`, lines 83-84) throw one; the `typeErrorUndefined` branches below
reproduce those failure points in evaluation order. -/
def getQuote (w : World) : Except RunError Quote × List Event :=
  match w.chains.find? (fun x => x.chainId == originChain.id) with
  | none => (.error (.typeErrorUndefined "originAcrossChain"), [.supportedChainsQuery])
  | some originAcrossChain =>
    let originTokenInfo := originAcrossChain.inputTokens.find?
      (fun x => x.symbol == originTokenSymbol)
    match w.chains.find? (fun x => x.chainId == destinationChain.id) with
    | none => (.error (.typeErrorUndefined "destinationAcrossChain"), [.supportedChainsQuery])
    | some destinationAcrossChain =>
      let destinationTokenInfo := destinationAcrossChain.inputTokens.find?
        (fun x => x.symbol == destTokenSymbol)
      match originTokenInfo with
      | none => (.error (.typeErrorUndefined "originTokenInfo"), [.supportedChainsQuery])
      | some oti =>
        match destinationTokenInfo with
        | none => (.error (.typeErrorUndefined "destinationTokenInfo"), [.supportedChainsQuery])
        | some dti =>
          let intent : GetQuoteParams :=
            ⟨⟨originChain.id, destinationChain.id, oti.address, dti.address⟩,
             inputAmountWei⟩
          let quote := w.quoteFor intent
          (.ok quote,
            [.supportedChainsQuery, .logRequestingQuote, .quoteRequest intent,
             .logQuoteSummary quote])

/-- What the progress observer logs for one notification. -/
inductive ProgressLog where
  | stepFailed (step : String) (status : String)
  | approvalReceipt (txReceipt : String)
  | depositIdReceived (depositId : Nat)
  | orderFilled (fillTxTimestamp : Nat)
  | unknownStep (step : String)
deriving DecidableEq

/-- Recognises the three phase-success payload-handling log lines (the
approve, deposit and fill branches of the switch). -/
def ProgressLog.isSuccessPayloadHandling : ProgressLog → Bool
  | .approvalReceipt _ => true
  | .depositIdReceived _ => true
  | .orderFilled _ => true
  | _ => false

/-- Lines 117-143, `onProgressCallback`: on a non-success status, log the
failed step and return early; on success, switch on the step and log its
payload, with unknown steps logged generically.  The callback only returns a
log list: it has no way to abort or escalate the run. -/
def onProgressCallback (p : ExecutionProgress) : List ProgressLog :=
  if p.status ≠ "txSuccess" then [.stepFailed p.step p.status]
  else
    match p.step with
    | "approve" => [.approvalReceipt p.txReceipt]
    | "deposit" => [.depositIdReceived p.depositId]
    | "fill" => [.orderFilled p.fillTxTimestamp]
    | _ => [.unknownStep p.step]

/-- Lines 152-156: log the error branch when the terminal result carries an
error, otherwise log the success payload. -/
def resultLog (r : ExecuteQuoteResponseParams) : Event :=
  match r.error with
  | some msg => .logBridgeError msg
  | none => .logBridgeSuccess r

/-- Lines 103-158, `bridge`: run the precheck; if it passes, create the
Across client, get a quote, execute it with the wallet client, and log the
terminal result.  A thrown error aborts the rest of the flow. -/
def bridge (w : World) (env : Env) (acct : Account) :
    Except RunError ExecuteQuoteResponseParams × List Event :=
  let pv := preValidate w env
  match pv.1 with
  | .error e => (.error e, pv.2)
  | .ok _ =>
    let gq := getQuote w
    match gq.1 with
    | .error e => (.error e, pv.2 ++ Event.createClient :: gq.2)
    | .ok quote =>
      let result := w.executeResult quote.deposit
      (.ok result,
        pv.2 ++ Event.createClient :: gq.2
          ++ [Event.executeQuote quote.deposit (walletClient acct).account.address,
              resultLog result])

/-- Lines 12-22: the module-level console logs emitted before the account is
derived. -/
def startupLogs : List Event := [.logLoadedKeys, .logChainSelection]

/-- The whole run: module-level logs, then the account derivation of line 28
(which throws on an ill-formed key, so nothing further runs), then
`bridge()`. -/
def main (w : World) (env : Env) :
    Except RunError ExecuteQuoteResponseParams × List Event :=
  match privateKeyToAccount w (rawPrivateKey env) with
  | .error e => (.error e, startupLogs)
  | .ok acct =>
    let r := bridge w env acct
    (r.1, startupLogs ++ r.2)

/-! Concrete fixtures: small worlds and environments used to instantiate the
general theorems on explicit inputs. -/

/-- A Sepolia ETH input-token entry. -/
def ethToken : TokenInfo := ⟨"ETH", "0xEeee0001"⟩

/-- An Arbitrum Sepolia WETH entry in the `inputTokens` list. -/
def wethInputToken : TokenInfo := ⟨"WETH", "0xAaaa0002"⟩

/-- An Arbitrum Sepolia WETH entry in the `outputTokens` list, with an
address deliberately different from the `inputTokens` entry. -/
def wethOutputToken : TokenInfo := ⟨"WETH", "0xBbbb0003"⟩

/-- A supported-chains response containing both configured chains and both
configured token symbols. -/
def demoChains : List AcrossChain :=
  [⟨11155111, [ethToken], []⟩, ⟨421614, [wethInputToken], [wethOutputToken]⟩]

/-- A fixed quote the demo service returns. -/
def demoQuote : Quote :=
  ⟨⟨inputAmountWei, 19 * 10 ^ 13, "deposit-data"⟩, ⟨⟨10 ^ 13⟩⟩, some 30⟩

/-- A terminal result carrying an error field. -/
def demoFailure : ExecuteQuoteResponseParams := ⟨some "relay failure", ""⟩

/-- A demo world: balance 1 ETH, complete chain list, fixed quote, failing
terminal result, constant address derivation. -/
def wDemo : World :=
  ⟨fun _ => 10 ^ 18, demoChains, fun _ => demoQuote, fun _ => demoFailure,
   fun _ => "0xDerivedSigner"⟩

/-- A world whose queried balance is 0.005 ETH (the spec's below-threshold
scenario). -/
def wLowBalance : World :=
  ⟨fun _ => 5 * 10 ^ 15, demoChains, fun _ => demoQuote, fun _ => demoFailure,
   fun _ => "0xDerivedSigner"⟩

/-- A world whose queried balance is exactly 0.01 ETH. -/
def wExactMin : World :=
  ⟨fun _ => 10 ^ 16, demoChains, fun _ => demoQuote, fun _ => demoFailure,
   fun _ => "0xDerivedSigner"⟩

/-- A world whose supported-chains response is empty (origin chain entry
missing). -/
def wNoChains : World :=
  ⟨fun _ => 10 ^ 18, [], fun _ => demoQuote, fun _ => demoFailure,
   fun _ => "0xDerivedSigner"⟩

/-- A world whose Sepolia entry contains no ETH input token (token entry
missing). -/
def wNoOriginToken : World :=
  ⟨fun _ => 10 ^ 18,
   [⟨11155111, [], []⟩, ⟨421614, [wethInputToken], [wethOutputToken]⟩],
   fun _ => demoQuote, fun _ => demoFailure, fun _ => "0xDerivedSigner"⟩

/-- An environment with a well-formed 64-hex-character private key. -/
def envDemo : Env := ⟨some (String.mk (List.replicate 64 'a')), "0xPublicKeyAddr"⟩

/-- An environment with the private-key variable absent. -/
def envNoKey : Env := ⟨none, "0xPublicKeyAddr"⟩

/-- The account the demo world derives. -/
def demoAccount : Account := ⟨"0xDerivedSigner"⟩

/-- A non-success progress notification for the deposit phase. -/
def failedDepositProgress : ExecutionProgress := ⟨"txError", "deposit", "", 7, 0, false⟩

/-- Decidable equality for `Except`, so that run results can be evaluated on
concrete inputs. -/
instance {E A : Type} [DecidableEq E] [DecidableEq A] : DecidableEq (Except E A)
  | .error a, .error b => if h : a = b then .isTrue (by rw [h]) else .isFalse (by simp [h])
  | .ok a, .ok b => if h : a = b then .isTrue (by rw [h]) else .isFalse (by simp [h])
  | .error _, .ok _ => .isFalse (by simp)
  | .ok _, .error _ => .isFalse (by simp)

/-! General lemmas about the embedded flow, shared by the claim theorems. -/

/-- The conversion `formatEther` is division by `10 ^ 18` in ℚ. -/
theorem formatEther_eq_div (wei : Nat) : formatEther wei = (wei : ℚ) / 10 ^ 18 := by
  rw [formatEther, Rat.mkRat_eq_div]
  norm_num

/-- The threshold constant is the display value `0.01`. -/
theorem minEthBalance_eq : minEthBalance = 1 / 100 := by
  rw [minEthBalance, Rat.mkRat_eq_div]
  norm_num

/-- The display-unit comparison of line 64 is, equivalently, the wei
comparison against `10 ^ 16`. -/
theorem formatEther_lt_min_iff (wei : Nat) :
    formatEther wei < minEthBalance ↔ wei < 10 ^ 16 := by
  rw [formatEther, minEthBalance, Rat.mkRat_eq_div, Rat.mkRat_eq_div,
    div_lt_div_iff₀ (by norm_num) (by norm_num)]
  push_cast
  norm_cast
  omega

/-- Shape of `preValidate` on a below-threshold balance. -/
theorem preValidate_below (w : World) (env : Env)
    (h : formatEther (w.balanceOf (getPubKey env)) < minEthBalance) :
    preValidate w env =
      (.error .insufficientFunds,
       [.logValidating (getPubKey env), .balanceQuery (getPubKey env),
        .logWeiBalance (w.balanceOf (getPubKey env)),
        .logEthBalance (formatEther (w.balanceOf (getPubKey env))),
        .logInsufficientFunds]) := by
  simp [preValidate, h]

/-- Shape of `preValidate` on a balance at or above the threshold. -/
theorem preValidate_ge (w : World) (env : Env)
    (h : ¬ formatEther (w.balanceOf (getPubKey env)) < minEthBalance) :
    preValidate w env =
      (.ok (),
       [.logValidating (getPubKey env), .balanceQuery (getPubKey env),
        .logWeiBalance (w.balanceOf (getPubKey env)),
        .logEthBalance (formatEther (w.balanceOf (getPubKey env)))]) := by
  simp [preValidate, h]

/-- Case analysis of `getQuote`: either all four lookups succeed and the
quote request carries exactly the resolved route, or some lookup misses and
the run dies with an undefined-access error right after the chain fetch. -/
theorem getQuote_cases (w : World) :
    (∃ oc oti dc dti,
      w.chains.find? (fun x => x.chainId == originChain.id) = some oc ∧
      oc.inputTokens.find? (fun x => x.symbol == originTokenSymbol) = some oti ∧
      w.chains.find? (fun x => x.chainId == destinationChain.id) = some dc ∧
      dc.inputTokens.find? (fun x => x.symbol == destTokenSymbol) = some dti ∧
      getQuote w =
        (.ok (w.quoteFor
           ⟨⟨originChain.id, destinationChain.id, oti.address, dti.address⟩, inputAmountWei⟩),
         [.supportedChainsQuery, .logRequestingQuote,
          .quoteRequest
            ⟨⟨originChain.id, destinationChain.id, oti.address, dti.address⟩, inputAmountWei⟩,
          .logQuoteSummary (w.quoteFor
            ⟨⟨originChain.id, destinationChain.id, oti.address, dti.address⟩, inputAmountWei⟩)])) ∨
    (∃ s, getQuote w = (.error (.typeErrorUndefined s), [.supportedChainsQuery])) := by
  rcases h1 : w.chains.find? (fun x => x.chainId == originChain.id) with _ | oc
  · right
    exact ⟨"originAcrossChain", by simp [getQuote, h1]⟩
  rcases h3 : w.chains.find? (fun x => x.chainId == destinationChain.id) with _ | dc
  · right
    exact ⟨"destinationAcrossChain", by simp [getQuote, h1, h3]⟩
  rcases h2 : oc.inputTokens.find? (fun x => x.symbol == originTokenSymbol) with _ | oti
  · right
    exact ⟨"originTokenInfo", by simp [getQuote, h1, h2, h3]⟩
  rcases h4 : dc.inputTokens.find? (fun x => x.symbol == destTokenSymbol) with _ | dti
  · right
    exact ⟨"destinationTokenInfo", by simp [getQuote, h1, h2, h3, h4]⟩
  left
  exact ⟨oc, oti, dc, dti, h1, h2, h3, h4, by simp [getQuote, h1, h2, h3, h4]⟩

/-! The claim theorems. -/

/-- C1: for every queried origin-chain balance strictly below the 0.01-ETH
minimum, the precheck fails with the InsufficientFunds error and the run
terminates with no bridging-related network side effect in its trace: no
client creation, no supported-chains fetch, no quote request, no execution. -/
theorem C1_insufficient_balance_aborts_before_bridging
    (w : World) (env : Env) (acct : Account)
    (h : formatEther (w.balanceOf (getPubKey env)) < minEthBalance) :
    (bridge w env acct).1 = .error .insufficientFunds ∧
      ∀ e ∈ (bridge w env acct).2, e.isBridgingSideEffect = false := by
  have hpv := preValidate_below w env h
  refine ⟨by simp [bridge, hpv], ?_⟩
  intro e he
  simp [bridge, hpv] at he
  rcases he with rfl | rfl | rfl | rfl | rfl <;> rfl

/-- Witness for C1 at the spec's below-threshold scenario: a queried balance
of 0.005 ETH. -/
theorem C1_witness :
    (bridge wLowBalance envDemo demoAccount).1 = .error .insufficientFunds ∧
      ∀ e ∈ (bridge wLowBalance envDemo demoAccount).2, e.isBridgingSideEffect = false :=
  C1_insufficient_balance_aborts_before_bridging wLowBalance envDemo demoAccount (by decide)

/-- C2: for every queried balance at or above the 0.01 display-unit minimum
(the boundary included), the precheck succeeds and the flow proceeds to
quoting (the supported-chains fetch of the quote step appears in the trace);
the compared quantity is the balance converted from wei to the decimal
display unit, i.e. divided by `10 ^ 18`. -/
theorem C2_threshold_met_proceeds_to_quoting
    (w : World) (env : Env) (acct : Account)
    (h : minEthBalance ≤ formatEther (w.balanceOf (getPubKey env))) :
    (preValidate w env).1 = .ok () ∧
      Event.supportedChainsQuery ∈ (bridge w env acct).2 ∧
      formatEther (w.balanceOf (getPubKey env)) = (w.balanceOf (getPubKey env) : ℚ) / 10 ^ 18 := by
  have hpv := preValidate_ge w env (not_lt.mpr h)
  refine ⟨by simp [hpv], ?_, formatEther_eq_div _⟩
  rcases getQuote_cases w with ⟨oc, oti, dc, dti, h1, h2, h3, h4, hq⟩ | ⟨s, hq⟩ <;>
    simp [bridge, hpv, hq]

/-- Witness for C2 at a balance of exactly 0.01 ETH (`10 ^ 16` wei). -/
theorem C2_witness :
    (preValidate wExactMin envDemo).1 = .ok () ∧
      Event.supportedChainsQuery ∈ (bridge wExactMin envDemo demoAccount).2 ∧
      formatEther (wExactMin.balanceOf (getPubKey envDemo)) =
        (wExactMin.balanceOf (getPubKey envDemo) : ℚ) / 10 ^ 18 :=
  C2_threshold_met_proceeds_to_quoting wExactMin envDemo demoAccount (by decide)

/-- C4: whenever the supported-chains response resolves the origin chain, its
ETH input token, the destination chain and its WETH token, the quote request
submitted to the service carries exactly the route made of the origin chain
id (11155111), the destination chain id (421614), the resolved origin token
address as input token and the resolved destination token address as output
token, together with the fixed input amount `inputAmountWei`
(= `parseEther "0.0002"` = 2·10¹⁴ wei). -/
theorem C4_route_uses_resolved_addresses
    (w : World) (oc dc : AcrossChain) (oti dti : TokenInfo)
    (hoc : w.chains.find? (fun x => x.chainId == originChain.id) = some oc)
    (hoti : oc.inputTokens.find? (fun x => x.symbol == originTokenSymbol) = some oti)
    (hdc : w.chains.find? (fun x => x.chainId == destinationChain.id) = some dc)
    (hdti : dc.inputTokens.find? (fun x => x.symbol == destTokenSymbol) = some dti) :
    getQuote w =
      (.ok (w.quoteFor
         ⟨⟨originChain.id, destinationChain.id, oti.address, dti.address⟩, inputAmountWei⟩),
       [.supportedChainsQuery, .logRequestingQuote,
        .quoteRequest
          ⟨⟨originChain.id, destinationChain.id, oti.address, dti.address⟩, inputAmountWei⟩,
        .logQuoteSummary (w.quoteFor
          ⟨⟨originChain.id, destinationChain.id, oti.address, dti.address⟩, inputAmountWei⟩)]) := by
  simp [getQuote, hoc, hoti, hdc, hdti]

/-- Witness for C4 on the demo supported-chains response. -/
theorem C4_witness :
    getQuote wDemo =
      (.ok (wDemo.quoteFor
         ⟨⟨originChain.id, destinationChain.id, ethToken.address, wethInputToken.address⟩,
          inputAmountWei⟩),
       [.supportedChainsQuery, .logRequestingQuote,
        .quoteRequest
          ⟨⟨originChain.id, destinationChain.id, ethToken.address, wethInputToken.address⟩,
           inputAmountWei⟩,
        .logQuoteSummary (wDemo.quoteFor
          ⟨⟨originChain.id, destinationChain.id, ethToken.address, wethInputToken.address⟩,
           inputAmountWei⟩)]) :=
  C4_route_uses_resolved_addresses wDemo ⟨11155111, [ethToken], []⟩
    ⟨421614, [wethInputToken], [wethOutputToken]⟩ ethToken wethInputToken
    (by decide) (by decide) (by decide) (by decide)

/-- C5: a progress notification whose status flag is not the success status
makes the observer log the failed step and return that single log line: none
of the phase-specific success-payload handling (approval receipt, deposit id,
fill timestamp) runs for it.  The observer returns a log list and has no
error or abort channel, so it cannot escalate the run. -/
theorem C5_non_success_progress_logs_and_returns_early
    (p : ExecutionProgress) (h : p.status ≠ "txSuccess") :
    onProgressCallback p = [.stepFailed p.step p.status] ∧
      ∀ l ∈ onProgressCallback p, l.isSuccessPayloadHandling = false := by
  have hc : onProgressCallback p = [.stepFailed p.step p.status] := by
    simp [onProgressCallback, h]
  refine ⟨hc, ?_⟩
  rw [hc]
  intro l hl
  simp at hl
  rw [hl]
  rfl

/-- Witness for C5 at a failed deposit-phase notification. -/
theorem C5_witness :
    onProgressCallback failedDepositProgress =
      [.stepFailed failedDepositProgress.step failedDepositProgress.status] ∧
      ∀ l ∈ onProgressCallback failedDepositProgress, l.isSuccessPayloadHandling = false :=
  C5_non_success_progress_logs_and_returns_early failedDepositProgress (by decide)

/-- Shape of a run of `bridge` that reaches a terminal result: the entire
trace, spelled out.  The terminal result is what the world's executor
returns for the quoted deposit. -/
theorem bridge_ok_shape (w : World) (env : Env) (acct : Account)
    (r : ExecuteQuoteResponseParams) (h : (bridge w env acct).1 = .ok r) :
    ∃ intent,
      r = w.executeResult (w.quoteFor intent).deposit ∧
      bridge w env acct =
        (.ok r,
         [.logValidating (getPubKey env), .balanceQuery (getPubKey env),
          .logWeiBalance (w.balanceOf (getPubKey env)),
          .logEthBalance (formatEther (w.balanceOf (getPubKey env))),
          .createClient, .supportedChainsQuery, .logRequestingQuote,
          .quoteRequest intent, .logQuoteSummary (w.quoteFor intent),
          .executeQuote (w.quoteFor intent).deposit acct.address,
          resultLog r]) := by
  by_cases hb : formatEther (w.balanceOf (getPubKey env)) < minEthBalance
  · have hpv := preValidate_below w env hb
    simp [bridge, hpv] at h
  · have hpv := preValidate_ge w env hb
    rcases getQuote_cases w with ⟨oc, oti, dc, dti, h1, h2, h3, h4, hq⟩ | ⟨s, hq⟩
    · refine ⟨⟨⟨originChain.id, destinationChain.id, oti.address, dti.address⟩,
        inputAmountWei⟩, ?_, ?_⟩
      · have := h
        simp [bridge, hpv, hq] at this
        exact this.symm
      · have hr : r = w.executeResult (w.quoteFor
            ⟨⟨originChain.id, destinationChain.id, oti.address, dti.address⟩,
             inputAmountWei⟩).deposit := by
          have := h
          simp [bridge, hpv, hq] at this
          exact this.symm
        rw [hr]
        simp [bridge, hpv, hq, walletClient]
    · simp [bridge, hpv, hq] at h

/-- C7: a terminal execution result reached by the flow is logged by exactly
one of the two branches — the error branch precisely when the result carries
an error field, otherwise the success branch — and execution is submitted
exactly once (no retry). -/
theorem C7_terminal_result_logged_once
    (w : World) (env : Env) (acct : Account) (r : ExecuteQuoteResponseParams)
    (h : (bridge w env acct).1 = .ok r) :
    (bridge w env acct).2.filter Event.isResultLog = [resultLog r] ∧
      (∀ msg, resultLog r = .logBridgeError msg ↔ r.error = some msg) ∧
      (r.error = none → resultLog r = .logBridgeSuccess r) ∧
      ((bridge w env acct).2.filter Event.isExecuteStep).length = 1 := by
  rcases bridge_ok_shape w env acct r h with ⟨intent, hr, hsh⟩
  rcases he : r.error with _ | msg
  · rw [hsh]
    refine ⟨?_, ?_, ?_, ?_⟩ <;>
      simp [resultLog, he, List.filter, Event.isResultLog, Event.isExecuteStep]
  · rw [hsh]
    refine ⟨?_, ?_, ?_, ?_⟩ <;>
      simp [resultLog, he, List.filter, Event.isResultLog, Event.isExecuteStep]

/-- Witness for C7 on the demo world, whose executor reports an error. -/
theorem C7_witness :
    (bridge wDemo envDemo demoAccount).2.filter Event.isResultLog = [resultLog demoFailure] ∧
      (∀ msg, resultLog demoFailure = .logBridgeError msg ↔ demoFailure.error = some msg) ∧
      (demoFailure.error = none → resultLog demoFailure = .logBridgeSuccess demoFailure) ∧
      ((bridge wDemo envDemo demoAccount).2.filter Event.isExecuteStep).length = 1 :=
  C7_terminal_result_logged_once wDemo envDemo demoAccount demoFailure (by decide)

/-- C8: every execution submission in a run's trace is preceded by the quote
request that produced its deposit, that deposit is passed verbatim (it is
the quoted deposit, unmodified), and the trace contains exactly one
execution submission: the quote feeds exactly one execution attempt. -/
theorem C8_quote_created_before_single_execution
    (w : World) (env : Env) (acct : Account) (d : Deposit) (a : String)
    (h : Event.executeQuote d a ∈ (bridge w env acct).2) :
    ((bridge w env acct).2.filter Event.isExecuteStep).length = 1 ∧
      ∃ intent l₁ l₂,
        (bridge w env acct).2 = l₁ ++ Event.quoteRequest intent :: l₂ ∧
        Event.executeQuote d a ∈ l₂ ∧
        d = (w.quoteFor intent).deposit := by
  by_cases hb : formatEther (w.balanceOf (getPubKey env)) < minEthBalance
  · have hpv := preValidate_below w env hb
    simp [bridge, hpv] at h
  · have hpv := preValidate_ge w env hb
    rcases getQuote_cases w with ⟨oc, oti, dc, dti, h1, h2, h3, h4, hq⟩ | ⟨s, hq⟩
    · have hd : d = (w.quoteFor
          ⟨⟨originChain.id, destinationChain.id, oti.address, dti.address⟩,
           inputAmountWei⟩).deposit := by
        simp [bridge, hpv, hq, walletClient, resultLog] at h
        rcases hres : (w.executeResult (w.quoteFor
            ⟨⟨originChain.id, destinationChain.id, oti.address, dti.address⟩,
             inputAmountWei⟩).deposit).error with _ | msg <;>
          simp [hres] at h <;> exact h.1
      refine ⟨?_, ⟨⟨originChain.id, destinationChain.id, oti.address, dti.address⟩,
        inputAmountWei⟩,
        [.logValidating (getPubKey env), .balanceQuery (getPubKey env),
         .logWeiBalance (w.balanceOf (getPubKey env)),
         .logEthBalance (formatEther (w.balanceOf (getPubKey env))),
         .createClient, .supportedChainsQuery, .logRequestingQuote],
        [.logQuoteSummary (w.quoteFor
           ⟨⟨originChain.id, destinationChain.id, oti.address, dti.address⟩,
            inputAmountWei⟩),
         .executeQuote (w.quoteFor
           ⟨⟨originChain.id, destinationChain.id, oti.address, dti.address⟩,
            inputAmountWei⟩).deposit acct.address,
         resultLog (w.executeResult (w.quoteFor
           ⟨⟨originChain.id, destinationChain.id, oti.address, dti.address⟩,
            inputAmountWei⟩).deposit)], ?_, ?_, hd⟩
      · rcases hres : (w.executeResult (w.quoteFor
            ⟨⟨originChain.id, destinationChain.id, oti.address, dti.address⟩,
             inputAmountWei⟩).deposit).error with _ | msg <;>
          simp [bridge, hpv, hq, walletClient, resultLog, hres, List.filter,
            Event.isExecuteStep]
      · simp [bridge, hpv, hq, walletClient]
      · have ha : a = acct.address := by
          simp [bridge, hpv, hq, walletClient, resultLog] at h
          rcases hres : (w.executeResult (w.quoteFor
              ⟨⟨originChain.id, destinationChain.id, oti.address, dti.address⟩,
               inputAmountWei⟩).deposit).error with _ | msg <;>
            simp [hres] at h <;> exact h.2
        rw [hd, ha]
        simp
    · simp [bridge, hpv, hq] at h

/-- Witness for C8 on the demo world's single execution. -/
theorem C8_witness :
    ((bridge wDemo envDemo demoAccount).2.filter Event.isExecuteStep).length = 1 ∧
      ∃ intent l₁ l₂,
        (bridge wDemo envDemo demoAccount).2 = l₁ ++ Event.quoteRequest intent :: l₂ ∧
        Event.executeQuote demoQuote.deposit "0xDerivedSigner" ∈ l₂ ∧
        demoQuote.deposit = (wDemo.quoteFor intent).deposit :=
  C8_quote_created_before_single_execution wDemo envDemo demoAccount
    demoQuote.deposit "0xDerivedSigner" (by decide)

/-- C9: the precheck queries the balance of the `PUBLIC_KEY` address, while
the wallet client signing the execution is bound to the account derived from
`PRIVATE_KEY`; in any run where those two addresses differ, every queried
balance address differs from the signer of every execution submission — the
checked balance is not the balance of the account that executes the bridge. -/
theorem C9_checked_address_is_not_signer
    (w : World) (env : Env) (acct : Account)
    (hacct : privateKeyToAccount w (rawPrivateKey env) = .ok acct)
    (hne : env.publicKey ≠ w.deriveAddress (rawPrivateKey env)) :
    ∀ b d a, Event.balanceQuery b ∈ (main w env).2 →
      Event.executeQuote d a ∈ (main w env).2 →
      b = env.publicKey ∧ a = acct.address ∧ b ≠ a := by
  have hval : isValidPrivateKeyHex (rawPrivateKey env) = true := by
    by_cases hv : isValidPrivateKeyHex (rawPrivateKey env)
    · exact hv
    · simp [privateKeyToAccount, hv] at hacct
  have haddr : acct = ⟨w.deriveAddress (rawPrivateKey env)⟩ := by
    simp [privateKeyToAccount, hval] at hacct
    exact hacct.symm
  subst haddr
  intro b d a hbq hex
  have htr : (main w env).2 =
      startupLogs ++ (bridge w env ⟨w.deriveAddress (rawPrivateKey env)⟩).2 := by
    simp [main, privateKeyToAccount, hval]
  rw [htr] at hbq hex
  by_cases hb : formatEther (w.balanceOf (getPubKey env)) < minEthBalance
  · have hpv := preValidate_below w env hb
    simp [bridge, hpv, startupLogs] at hex
  · have hpv := preValidate_ge w env hb
    rcases getQuote_cases w with ⟨oc, oti, dc, dti, hh1, hh2, hh3, hh4, hq⟩ | ⟨s, hq⟩
    · rcases hres : (w.executeResult (w.quoteFor
          ⟨⟨originChain.id, destinationChain.id, oti.address, dti.address⟩,
           inputAmountWei⟩).deposit).error with _ | msg <;>
        simp [bridge, hpv, hq, walletClient, startupLogs, resultLog, hres] at hbq hex <;>
        exact ⟨hbq, hex.2, by rw [hbq, hex.2]; exact hne⟩
    · simp [bridge, hpv, hq, startupLogs] at hex

/-- Witness for C9 on the demo world, whose derived signer address differs
from the configured public key. -/
theorem C9_witness :
    "0xPublicKeyAddr" = envDemo.publicKey ∧
      "0xDerivedSigner" = demoAccount.address ∧
      ("0xPublicKeyAddr" : String) ≠ "0xDerivedSigner" :=
  C9_checked_address_is_not_signer wDemo envDemo demoAccount (by decide) (by decide)
    "0xPublicKeyAddr" demoQuote.deposit "0xDerivedSigner" (by decide) (by decide)

/-- C3: the claim prescribes named ChainNotFound/TokenNotFound failures, but
on a supported-chains response missing the origin chain entry (here: an
empty response) or missing the origin token entry, the code dereferences the
unchecked `find` result and dies with a generic undefined-access TypeError —
never one of the named errors — though it does fail before any quote request
is submitted.  The spec itself flags this unguarded lookup as a defect of
the reference flow. -/
theorem C3_lookup_miss_is_generic_type_error :
    getQuote wNoChains =
      (.error (.typeErrorUndefined "originAcrossChain"), [.supportedChainsQuery]) ∧
      (getQuote wNoChains).1 ≠ .error .chainNotFound ∧
      getQuote wNoOriginToken =
        (.error (.typeErrorUndefined "originTokenInfo"), [.supportedChainsQuery]) ∧
      (getQuote wNoOriginToken).1 ≠ .error .tokenNotFound ∧
      (∀ intent, Event.quoteRequest intent ∉ (getQuote wNoChains).2) ∧
      (∀ intent, Event.quoteRequest intent ∉ (getQuote wNoOriginToken).2) := by
  refine ⟨by decide, by decide, by decide, by decide, ?_, ?_⟩
  · intro intent hmem
    rw [show (getQuote wNoChains).2 = [Event.supportedChainsQuery] from by decide] at hmem
    simp at hmem
  · intro intent hmem
    rw [show (getQuote wNoOriginToken).2 = [Event.supportedChainsQuery] from by decide] at hmem
    simp at hmem

/-- C6 counterexample: with the private-key variable absent, the run fails
with the generic invalid-private-key parse error on the interpolated string
`0xundefined`, not with a MissingCredential condition. -/
theorem C6_counterexample :
    (main wDemo envNoKey).1 = .error (.invalidPrivateKey "0xundefined") ∧
      (main wDemo envNoKey).1 ≠ .error .missingCredential :=
  ⟨by decide, by decide⟩

/-- C6 (amended): if the private-key environment secret is absent at startup,
the run fails fatally — the undefined variable interpolates to `0xundefined`,
which the key parser rejects — and no network side effect at all (balance
query, client creation, quote, or execution) occurs; the failure is the
parser's invalid-key error rather than an explicitly handled MissingCredential
condition. -/
theorem C6_missing_key_fatal_before_network
    (w : World) (env : Env) (h : env.privateKey = none) :
    (main w env).1 = .error (.invalidPrivateKey "0xundefined") ∧
      ∀ e ∈ (main w env).2, e.isNetworkEffect = false := by
  have hraw : rawPrivateKey env = "0xundefined" := by rw [rawPrivateKey, h]; rfl
  have hval : isValidPrivateKeyHex "0xundefined" = false := by decide
  refine ⟨by simp [main, privateKeyToAccount, hraw, hval], ?_⟩
  intro e he
  simp [main, privateKeyToAccount, hraw, hval, startupLogs] at he
  rcases he with rfl | rfl <;> rfl

/-- Witness for C6 (amended) at the concrete key-less environment. -/
theorem C6_witness :
    (main wDemo envNoKey).1 = .error (.invalidPrivateKey "0xundefined") ∧
      ∀ e ∈ (main wDemo envNoKey).2, e.isNetworkEffect = false :=
  C6_missing_key_fatal_before_network wDemo envNoKey rfl

/-- C10: the destination token is resolved by searching the destination chain
entry's `inputTokens` list — the same field used for the origin token — for
the destination symbol; hence the output token address of any submitted quote
request is the address of the matching entry of that `inputTokens` list
(whatever the entry's `outputTokens` list contains). -/
theorem C10_output_token_resolved_from_inputTokens
    (w : World) (dc : AcrossChain) (dti : TokenInfo) (intent : GetQuoteParams)
    (hdc : w.chains.find? (fun x => x.chainId == destinationChain.id) = some dc)
    (hdti : dc.inputTokens.find? (fun x => x.symbol == destTokenSymbol) = some dti)
    (hmem : Event.quoteRequest intent ∈ (getQuote w).2) :
    intent.route.outputToken = dti.address := by
  rcases getQuote_cases w with ⟨oc, oti, dc', dti', h1, h2, h3, h4, hq⟩ | ⟨s, hq⟩
  · rw [h3] at hdc
    injection hdc with hdc'
    subst hdc'
    rw [h4] at hdti
    injection hdti with hdti'
    subst hdti'
    rw [hq] at hmem
    simp at hmem
    rw [hmem]
  · rw [hq] at hmem
    simp at hmem

/-- Witness for C10 on the demo response, whose destination chain lists WETH
at one address among its input tokens and at a different address among its
output tokens: the route's output token is the input-token-list address. -/
theorem C10_witness :
    (⟨⟨11155111, 421614, "0xEeee0001", "0xAaaa0002"⟩, inputAmountWei⟩ :
      GetQuoteParams).route.outputToken = wethInputToken.address :=
  C10_output_token_resolved_from_inputTokens wDemo
    ⟨421614, [wethInputToken], [wethOutputToken]⟩ wethInputToken
    ⟨⟨11155111, 421614, "0xEeee0001", "0xAaaa0002"⟩, inputAmountWei⟩
    (by decide) (by decide) (by decide)

end SdkApp
